import Mathlib

/-!
Shallow embedding of the BACK-API-BIRTDAY-ANIME validation/CRUD core.

Python strings are modelled as lists of Unicode code points (Str), dates as
year/month/day triples ordered lexicographically (as datetime.date compares),
and the relational store as lists of rows (DB).  Repository methods become
pure functions over DB; validators and services return Except Err, where Err
covers the HTTPException kinds raised by the code (NotFound 404, Conflict 409)
together with the Python runtime errors the code can raise (AttributeError,
TypeError) and database integrity errors.  All embeddings follow
src/app/... of the repository; each definition cites the Python unit it
mirrors.
-/

/-- A Python str as a list of Unicode code points. -/
abbrev Str := List Nat

/-- Code points of a Lean string literal, for writing concrete test data. -/
def mkStr (s : String) : Str := s.toList.map Char.toNat

/-- datetime.date: year, month, day. -/
structure Date where
  year : Nat
  month : Nat
  day : Nat
deriving DecidableEq, Repr

/-- Python date comparison a < b (lexicographic on year, month, day). -/
def Date.blt (a b : Date) : Bool :=
  decide (a.year < b.year) ||
    (decide (a.year = b.year) &&
      (decide (a.month < b.month) ||
        (decide (a.month = b.month) && decide (a.day < b.day))))

/-- Errors surfaced by the request pipeline: the two HTTPException kinds the
validators and services raise, plus the Python runtime errors
(AttributeError / TypeError) and database IntegrityError that unguarded code
paths produce. -/
inductive Err where
  | notFound (detail : String)
  | conflict (detail : String)
  | attributeError (attr : String)
  | typeError (detail : String)
  | integrityError
deriving DecidableEq, Repr

/-- ValueError kinds raised by the schema-stage date validators
(the messages in the source are interpolated strings; only the kind is
modelled). -/
inductive SchemaErr where
  | futureDate
  | tooEarly
deriving DecidableEq, Repr

instance exceptDecEq {ε α : Type} [DecidableEq ε] [DecidableEq α] :
    DecidableEq (Except ε α) := fun x y =>
  match x, y with
  | .error a, .error b =>
    if h : a = b then isTrue (by rw [h]) else isFalse (fun hc => by cases hc; exact h rfl)
  | .ok a, .ok b =>
    if h : a = b then isTrue (by rw [h]) else isFalse (fun hc => by cases hc; exact h rfl)
  | .error _, .ok _ => isFalse (fun hc => by cases hc)
  | .ok _, .error _ => isFalse (fun hc => by cases hc)

/-! ## String sanitization
app/utils/sanatizers/common_sanatizers_str.py (and the identical private
copies inside AnimeSchema / EpisodeSchema). -/

/-- Python str.isspace for the characters str.split treats as separators. -/
def isSpaceChar (c : Nat) : Bool :=
  c == 32 || c == 9 || c == 10 || c == 11 || c == 12 || c == 13

/-- Python str.lower on one code point (ASCII letters, as the data uses). -/
def lowerChar (c : Nat) : Nat :=
  if 65 ≤ c ∧ c ≤ 90 then c + 32 else c

/-- convert_to_lowercase: value.lower(). -/
def lowerStr (s : Str) : Str := s.map lowerChar

/-- Accumulator for str.split(): the words of s, with acc the (reversed)
word currently being read. -/
def splitWsAcc : Str → Str → List Str
  | [], acc => if acc.isEmpty then [] else [acc.reverse]
  | c :: rest, acc =>
    if isSpaceChar c then
      if acc.isEmpty then splitWsAcc rest [] else acc.reverse :: splitWsAcc rest []
    else
      splitWsAcc rest (c :: acc)

/-- Python value.split() with no argument: maximal runs of non-whitespace,
leading/trailing/repeated whitespace discarded. -/
def splitWs (s : Str) : List Str := splitWsAcc s []

/-- Python " ".join(words). -/
def joinSpace : List Str → Str
  | [] => []
  | [w] => w
  | w :: ws => w ++ 32 :: joinSpace ws

/-- remove_extra_spaces(value) = " ".join(value.split()). -/
def removeExtraSpaces (s : Str) : Str := joinSpace (splitWs s)

/-- AnimeSchema.sanitize_string / AuthorSchemaCreate.sanatizar_str:
remove_extra_spaces then convert_to_lowercase. -/
def sanitizeStr (s : Str) : Str := lowerStr (removeExtraSpaces s)

/-! ## Schema-stage date validation
app/utils/validations/common_validations_date.py and the identical
static methods of AnimeSchema.  today is the validation instant
(datetime.now().date()). -/

/-- validate_date_not_in_the_future: raise if value > today. -/
def validate_date_not_in_the_future (today value : Date) : Except SchemaErr Unit :=
  if Date.blt today value then throw SchemaErr.futureDate else pure ()

/-- validate_date_no_less_minimum: raise if value < min_date. -/
def validate_date_no_less_minimum (value minDate : Date) : Except SchemaErr Unit :=
  if Date.blt value minDate then throw SchemaErr.tooEarly else pure ()

/-- Minimum release date hard-coded in AnimeSchema.validate_date_no_less_minimum. -/
def animeMinDate : Date := ⟨1907, 1, 1⟩

/-- Minimum birthday hard-coded in AuthorSchemaCreate.validate_date. -/
def authorMinDate : Date := ⟨1877, 11, 4⟩

/-! ## Input schemas (field values after pydantic parsing). -/

/-- app/schemas/anime_schema.py AnimeSchema: name, category, release_date. -/
structure AnimeSchema where
  name : Str
  category : Str
  releaseDate : Date
deriving DecidableEq, Repr

/-- AnimeSchema parsing of raw string fields: the mode-after sanitize_string
validator stores the sanitized name and category (for an input whose
release_date already passed AnimeSchema.validate_date). -/
def mkAnimeSchema (rawName rawCategory : Str) (releaseDate : Date) : AnimeSchema :=
  { name := sanitizeStr rawName
    category := sanitizeStr rawCategory
    releaseDate := releaseDate }

/-- AnimeSchema.validate_date after create_date has parsed the value:
the not-in-the-future check then the 1907-01-01 minimum check. -/
def AnimeSchema.validate_date (today v : Date) : Except SchemaErr Date := do
  validate_date_not_in_the_future today v
  validate_date_no_less_minimum v animeMinDate
  pure v

/-- app/schemas/author_schema.py AuthorSchemaCreate: name, alias, birthday. -/
structure AuthorSchema where
  name : Str
  aliasName : Str
  birthday : Date
deriving DecidableEq, Repr

/-- AuthorSchemaCreate.validate_date after create_date has parsed the string
(the is-instance and YYYY-MM-DD format checks concern the raw string and are
prior to these date-bound checks): future check then 1877-11-04 minimum. -/
def AuthorSchemaCreate.validate_date (today v : Date) : Except SchemaErr Date := do
  validate_date_not_in_the_future today v
  validate_date_no_less_minimum v authorMinDate
  pure v

/-- app/schemas/episode_schema.py EpisodeSchema.  Its season-like field is
named temp (there is no season attribute on this schema). -/
structure EpisodeSchema where
  animeId : Nat
  arc : Option Str
  temp : Nat
  name : Str
  episode : Nat
  airDate : Date
deriving DecidableEq, Repr

/-- app/schemas/author_schema.py AuthorAnimeRelationSchema. -/
structure AuthorAnimeRelationSchema where
  authorId : Nat
  animeId : Nat
deriving DecidableEq, Repr

/-- app/schemas/episode_schema.py EpisodeAuthorRelationSchema. -/
structure EpisodeAuthorRelationSchema where
  episodeId : Nat
  authorId : Nat
deriving DecidableEq, Repr

/-! ## Entity store (app/models/tables, app/models/relationships). -/

/-- Row of the anime table. -/
structure AnimeRow where
  id : Nat
  name : Str
  category : Str
  releaseDate : Date
deriving DecidableEq, Repr

/-- Row of the author table (the alias and birthday columns are nullable;
the source field alias is a Lean keyword, rendered aliasName here). -/
structure AuthorRow where
  id : Nat
  name : Str
  aliasName : Option Str
  birthday : Option Date
deriving DecidableEq, Repr

/-- Row of the episode table. -/
structure EpisodeRow where
  id : Nat
  animeId : Nat
  arc : Option Str
  season : Nat
  name : Str
  episode : Nat
  airDate : Date
deriving DecidableEq, Repr

/-- The relational store: the three entity tables in insertion order, the two
association tables as (anime_id, author_id) resp. (episode_id, author_id)
pairs, and the autoincrement counters for the generated primary keys. -/
structure DB where
  animes : List AnimeRow
  authors : List AuthorRow
  episodes : List EpisodeRow
  animeAuthor : List (Nat × Nat)
  episodeAuthor : List (Nat × Nat)
  nextAnimeId : Nat
  nextAuthorId : Nat
  nextEpisodeId : Nat
deriving DecidableEq, Repr

/-- A store with no rows. -/
def emptyDB : DB := ⟨[], [], [], [], [], 1, 1, 1⟩

/-- ISO rendering of a day or month (zero-padded to two digits), for the
string-valued date filters of the list endpoints. -/
def pad2 (n : Nat) : Str :=
  if n < 10 then [48, 48 + n] else [48 + n / 10, 48 + n % 10]

/-- ISO rendering of a year (four digits). -/
def pad4 (n : Nat) : Str :=
  [48 + n / 1000 % 10, 48 + n / 100 % 10, 48 + n / 10 % 10, 48 + n % 10]

/-- str(date) in ISO form YYYY-MM-DD, the representation against which the
string date filters of filter_by compare. -/
def isoOfDate (d : Date) : Str :=
  pad4 d.year ++ 45 :: (pad2 d.month ++ 45 :: pad2 d.day)

/-! ## AnimeRepository (app/repositories/anime_repository.py). -/

namespace AnimeRepository

/-- list: each provided filter is applied only when the Python value is
truthy (if name: ...), then offset(start).limit(limit). -/
def list (db : DB) (name category releaseDate : Option Str)
    (limit start : Option Nat) : List AnimeRow :=
  let q := db.animes
  let q := match name with
    | some s => if s.isEmpty then q else q.filter (fun a => a.name == s)
    | none => q
  let q := match category with
    | some s => if s.isEmpty then q else q.filter (fun a => a.category == s)
    | none => q
  let q := match releaseDate with
    | some s => if s.isEmpty then q else q.filter (fun a => isoOfDate a.releaseDate == s)
    | none => q
  let q := match start with
    | some n => q.drop n
    | none => q
  match limit with
  | some n => q.take n
  | none => q

/-- get: first row whose id matches, else None. -/
def get (db : DB) (animeId : Nat) : Option AnimeRow :=
  db.animes.find? (fun a => a.id == animeId)

/-- create: persist with the generated id and return the stored row. -/
def create (db : DB) (name category : Str) (releaseDate : Date) : DB × AnimeRow :=
  let row : AnimeRow := ⟨db.nextAnimeId, name, category, releaseDate⟩
  ({ db with animes := db.animes ++ [row], nextAnimeId := db.nextAnimeId + 1 }, row)

/-- delete: remove the row with the given id. -/
def delete (db : DB) (animeId : Nat) : DB :=
  { db with animes := db.animes.filter (fun a => a.id != animeId) }

/-- exists_by_id. -/
def exists_by_id (db : DB) (animeId : Nat) : Bool :=
  db.animes.any (fun a => a.id == animeId)

/-- is_related_to_episode: the filtered anime joined with its episodes is
nonempty, i.e. the anime exists and at least one episode references it. -/
def is_related_to_episode (db : DB) (animeId : Nat) : Bool :=
  db.animes.any (fun a => a.id == animeId) &&
    db.episodes.any (fun e => e.animeId == animeId)

/-- is_name_taken base query. -/
def is_name_taken (db : DB) (animeName : Str) : List AnimeRow :=
  db.animes.filter (fun a => a.name == animeName)

/-- is_name_taken_for_create. -/
def is_name_taken_for_create (db : DB) (animeName : Str) : Bool :=
  !(is_name_taken db animeName).isEmpty

/-- is_name_taken_for_update: same match excluding the given id. -/
def is_name_taken_for_update (db : DB) (excludeId : Nat) (animeName : Str) : Bool :=
  !((is_name_taken db animeName).filter (fun a => a.id != excludeId)).isEmpty

end AnimeRepository

/-! ## AuthorRepository (app/repositories/author_repository.py). -/

namespace AuthorRepository

/-- list with truthiness-guarded filters and pagination. -/
def list (db : DB) (name aliasName birthday : Option Str)
    (limit start : Option Nat) : List AuthorRow :=
  let q := db.authors
  let q := match name with
    | some s => if s.isEmpty then q else q.filter (fun a => a.name == s)
    | none => q
  let q := match aliasName with
    | some s => if s.isEmpty then q else q.filter (fun a => a.aliasName == some s)
    | none => q
  let q := match birthday with
    | some s => if s.isEmpty then q else
        q.filter (fun a => (a.birthday.map isoOfDate).getD [] == s)
    | none => q
  let q := match start with
    | some n => q.drop n
    | none => q
  match limit with
  | some n => q.take n
  | none => q

/-- get. -/
def get (db : DB) (authorId : Nat) : Option AuthorRow :=
  db.authors.find? (fun a => a.id == authorId)

/-- create with generated id. -/
def create (db : DB) (name : Str) (aliasName : Option Str) (birthday : Option Date) :
    DB × AuthorRow :=
  let row : AuthorRow := ⟨db.nextAuthorId, name, aliasName, birthday⟩
  ({ db with authors := db.authors ++ [row], nextAuthorId := db.nextAuthorId + 1 }, row)

/-- exists_by_id. -/
def exists_by_id (db : DB) (authorId : Nat) : Bool :=
  db.authors.any (fun a => a.id == authorId)

/-- is_related_to_animes: author exists and some anime-author pair names it. -/
def is_related_to_animes (db : DB) (authorId : Nat) : Bool :=
  db.authors.any (fun a => a.id == authorId) &&
    db.animeAuthor.any (fun p => p.2 == authorId)

/-- is_related_to_episodes: author exists and some episode-author pair names it. -/
def is_related_to_episodes (db : DB) (authorId : Nat) : Bool :=
  db.authors.any (fun a => a.id == authorId) &&
    db.episodeAuthor.any (fun p => p.2 == authorId)

/-- query_is_name_taken base query. -/
def query_is_name_taken (db : DB) (authorName : Str) : List AuthorRow :=
  db.authors.filter (fun a => a.name == authorName)

/-- is_name_taken_for_create. -/
def is_name_taken_for_create (db : DB) (authorName : Str) : Bool :=
  !(query_is_name_taken db authorName).isEmpty

/-- is_name_taken_for_update. -/
def is_name_taken_for_update (db : DB) (excludeId : Nat) (authorName : Str) : Bool :=
  !((query_is_name_taken db authorName).filter (fun a => a.id != excludeId)).isEmpty

/-- get_by_birthday: authors whose birthday equals the target date
(a NULL birthday matches no date). -/
def get_by_birthday (db : DB) (targetDate : Date) : List AuthorRow :=
  db.authors.filter (fun a => a.birthday == some targetDate)

end AuthorRepository

/-! ## EpisodeRepository (app/repositories/episode_repository.py). -/

namespace EpisodeRepository

/-- list with truthiness-guarded filters (anime_id, arc, season, name,
episode, air_date) and pagination. -/
def list (db : DB) (animeId : Option Nat) (arc : Option Str) (season : Option Nat)
    (name : Option Str) (episode : Option Nat) (airDate : Option Str)
    (limit start : Option Nat) : List EpisodeRow :=
  let q := db.episodes
  let q := match animeId with
    | some n => if n == 0 then q else q.filter (fun e => e.animeId == n)
    | none => q
  let q := match arc with
    | some s => if s.isEmpty then q else q.filter (fun e => e.arc == some s)
    | none => q
  let q := match season with
    | some n => if n == 0 then q else q.filter (fun e => e.season == n)
    | none => q
  let q := match name with
    | some s => if s.isEmpty then q else q.filter (fun e => e.name == s)
    | none => q
  let q := match episode with
    | some n => if n == 0 then q else q.filter (fun e => e.episode == n)
    | none => q
  let q := match airDate with
    | some s => if s.isEmpty then q else q.filter (fun e => isoOfDate e.airDate == s)
    | none => q
  let q := match start with
    | some n => q.drop n
    | none => q
  match limit with
  | some n => q.take n
  | none => q

/-- get. -/
def get (db : DB) (episodeId : Nat) : Option EpisodeRow :=
  db.episodes.find? (fun e => e.id == episodeId)

/-- create: persist an episode built by the factory, assigning the id. -/
def create (db : DB) (animeId : Nat) (arc : Option Str) (season : Nat)
    (name : Str) (episode : Nat) (airDate : Date) : DB × EpisodeRow :=
  let row : EpisodeRow := ⟨db.nextEpisodeId, animeId, arc, season, name, episode, airDate⟩
  ({ db with episodes := db.episodes ++ [row], nextEpisodeId := db.nextEpisodeId + 1 }, row)

/-- delete. -/
def delete (db : DB) (episodeId : Nat) : DB :=
  { db with episodes := db.episodes.filter (fun e => e.id != episodeId) }

/-- exists_by_id. -/
def exists_by_id (db : DB) (episodeId : Nat) : Bool :=
  db.episodes.any (fun e => e.id == episodeId)

/-- anime_has_episodes: some episode references the anime id. -/
def anime_has_episodes (db : DB) (animeId : Nat) : Bool :=
  db.episodes.any (fun e => e.animeId == animeId)

/-- is_episode_name_taken base query: episodes of data_episode.anime_id with
data_episode.name. -/
def is_episode_name_taken (db : DB) (dataEpisode : EpisodeSchema) : List EpisodeRow :=
  db.episodes.filter (fun e => e.animeId == dataEpisode.animeId && e.name == dataEpisode.name)

/-- is_episode_name_taken_for_create. -/
def is_episode_name_taken_for_create (db : DB) (dataEpisode : EpisodeSchema) : Bool :=
  !(is_episode_name_taken db dataEpisode).isEmpty

/-- is_episode_name_taken_for_update: the base match minus the row whose id
equals exclude_id (the validator passes the anime id here). -/
def is_episode_name_taken_for_update (db : DB) (excludeId : Nat)
    (dataEpisode : EpisodeSchema) : Bool :=
  !((is_episode_name_taken db dataEpisode).filter (fun e => e.id != excludeId)).isEmpty

/-- is_episode_number_taken_in_season base query.  Its filter reads
data_episode.season, but EpisodeSchema declares the field temp and no
season attribute, so Python raises AttributeError before any row is
examined. -/
def is_episode_number_taken_in_season (db : DB) (dataEpisode : EpisodeSchema) :
    Except Err (List EpisodeRow) :=
  throw (Err.attributeError "season")

/-- is_episode_number_taken_in_season_for_create. -/
def is_episode_number_taken_in_season_for_create (db : DB)
    (dataEpisode : EpisodeSchema) : Except Err Bool := do
  let q ← is_episode_number_taken_in_season db dataEpisode
  pure (!q.isEmpty)

/-- is_episode_number_taken_in_temp_for_update: base query minus exclude_id. -/
def is_episode_number_taken_in_temp_for_update (db : DB) (excludeId : Nat)
    (dataEpisode : EpisodeSchema) : Except Err Bool := do
  let q ← is_episode_number_taken_in_season db dataEpisode
  pure (!((q.filter (fun e => e.id != excludeId)).isEmpty))

/-- exists_relation_between_episode_and_author. -/
def exists_relation_between_episode_and_author (db : DB)
    (episodeId authorId : Nat) : Bool :=
  db.episodeAuthor.any (fun p => p.1 == episodeId && p.2 == authorId)

/-- create_author_relation: raw insert into the association table; a
duplicate of the composite primary key surfaces as IntegrityError. -/
def create_author_relation (db : DB) (episodeId authorId : Nat) :
    Except Err (DB × EpisodeAuthorRelationSchema) :=
  if db.episodeAuthor.any (fun p => p.1 == episodeId && p.2 == authorId) then
    throw Err.integrityError
  else
    pure ({ db with episodeAuthor := db.episodeAuthor ++ [(episodeId, authorId)] },
      ⟨episodeId, authorId⟩)

end EpisodeRepository

/-! ## Validators (app/validations). -/

namespace AnimeValidator

/-- validate_exists_by_id: 404 when the id is absent. -/
def validate_exists_by_id (db : DB) (animeId : Nat) : Except Err Unit :=
  if AnimeRepository.exists_by_id db animeId then pure ()
  else throw (Err.notFound "The anime does not exist.")

/-- validate_is_related_to_episode: 409 when an episode references the anime. -/
def validate_is_related_to_episode (db : DB) (animeId : Nat) : Except Err Unit :=
  if AnimeRepository.is_related_to_episode db animeId then
    throw (Err.conflict "The anime is related to episode")
  else pure ()

/-- validate_unique_name_for_create. -/
def validate_unique_name_for_create (db : DB) (animeName : Str) : Except Err Unit :=
  if AnimeRepository.is_name_taken_for_create db animeName then
    throw (Err.conflict "There is an anime with that name")
  else pure ()

/-- validate_unique_name_for_update. -/
def validate_unique_name_for_update (db : DB) (excludeId : Nat) (animeName : Str) :
    Except Err Unit :=
  if AnimeRepository.is_name_taken_for_update db excludeId animeName then
    throw (Err.conflict "There is an anime with that name")
  else pure ()

/-- validate_release_date_not_in_future: 409 when release_date > today. -/
def validate_release_date_not_in_future (today releaseDate : Date) : Except Err Unit :=
  if Date.blt today releaseDate then
    throw (Err.conflict "The date of publication should not be in the future.")
  else pure ()

/-- validate_data_for_get. -/
def validate_data_for_get (db : DB) (animeId : Nat) : Except Err Unit :=
  validate_exists_by_id db animeId

/-- validate_data_for_create: unique name, then release date bound. -/
def validate_data_for_create (today : Date) (db : DB) (animeBody : AnimeSchema) :
    Except Err Unit := do
  validate_unique_name_for_create db animeBody.name
  validate_release_date_not_in_future today animeBody.releaseDate

/-- validate_data_for_update: exists, unique name excluding self, date bound. -/
def validate_data_for_update (today : Date) (db : DB) (animeId : Nat)
    (animeBody : AnimeSchema) : Except Err Unit := do
  validate_exists_by_id db animeId
  validate_unique_name_for_update db animeId animeBody.name
  validate_release_date_not_in_future today animeBody.releaseDate

/-- validate_data_for_delete: exists, then not related to any episode. -/
def validate_data_for_delete (db : DB) (animeId : Nat) : Except Err Unit := do
  validate_exists_by_id db animeId
  validate_is_related_to_episode db animeId

end AnimeValidator

namespace AuthorValidator

/-- validate_exists_by_id: 404 when the id is absent. -/
def validate_exists_by_id (db : DB) (authorId : Nat) : Except Err Unit :=
  if AuthorRepository.exists_by_id db authorId then pure ()
  else throw (Err.notFound "The author does not exist.")

/-- validate_data_for_get. -/
def validate_data_for_get (db : DB) (authorId : Nat) : Except Err Unit :=
  validate_exists_by_id db authorId

/-- validate_unique_name_for_create (the message typo is the source's). -/
def validate_unique_name_for_create (db : DB) (authorName : Str) : Except Err Unit :=
  if AuthorRepository.is_name_taken_for_create db authorName then
    throw (Err.conflict "There is an auhor with that name")
  else pure ()

/-- validate_aunique_name_for_update (source spelling). -/
def validate_aunique_name_for_update (db : DB) (excludeId : Nat) (authorName : Str) :
    Except Err Unit :=
  if AuthorRepository.is_name_taken_for_update db excludeId authorName then
    throw (Err.conflict "There is an auhor with that name")
  else pure ()

/-- validate_birthday_date_not_in_future: 409 when birthday > today. -/
def validate_birthday_date_not_in_future (today birthday : Date) : Except Err Unit :=
  if Date.blt today birthday then
    throw (Err.conflict "The birthday date should not be in the future.")
  else pure ()

/-- validate_is_related_to_anime. -/
def validate_is_related_to_anime (db : DB) (authorId : Nat) : Except Err Unit :=
  if AuthorRepository.is_related_to_animes db authorId then
    throw (Err.conflict "The author is releated to anime")
  else pure ()

/-- validate_is_related_to_episode. -/
def validate_is_related_to_episode (db : DB) (authorId : Nat) : Except Err Unit :=
  if AuthorRepository.is_related_to_episodes db authorId then
    throw (Err.conflict "The author is releated to episode")
  else pure ()

/-- validate_data_for_create: unique name, then birthday bound. -/
def validate_data_for_create (today : Date) (db : DB) (authorBody : AuthorSchema) :
    Except Err Unit := do
  validate_unique_name_for_create db authorBody.name
  validate_birthday_date_not_in_future today authorBody.birthday

/-- validate_data_for_update as written in the source: it checks name
uniqueness (excluding exclude_id) and the birthday bound, and performs no
validate_exists_by_id call, although its docstring announces a 404 for a
missing author. -/
def validate_data_for_update (today : Date) (db : DB) (excludeId : Nat)
    (authorBody : AuthorSchema) : Except Err Unit := do
  validate_aunique_name_for_update db excludeId authorBody.name
  validate_birthday_date_not_in_future today authorBody.birthday

/-- validate_data_for_delete: exists, not related to anime, not to episode. -/
def validate_data_for_delete (db : DB) (authorId : Nat) : Except Err Unit := do
  validate_exists_by_id db authorId
  validate_is_related_to_anime db authorId
  validate_is_related_to_episode db authorId

end AuthorValidator

namespace EpisodeValidator

/-- validate_exists_by_id: 404 when the id is absent. -/
def validate_exists_by_id (db : DB) (episodeId : Nat) : Except Err Unit :=
  if EpisodeRepository.exists_by_id db episodeId then pure ()
  else throw (Err.notFound "The episode does not exist.")

/-- validate_data_for_get. -/
def validate_data_for_get (db : DB) (episodeId : Nat) : Except Err Unit :=
  validate_exists_by_id db episodeId

/-- validate_air_date_not_in_future: 409 when air_date > today. -/
def validate_air_date_not_in_future (today airDate : Date) : Except Err Unit :=
  if Date.blt today airDate then
    throw (Err.conflict "The air date should not be in the future.")
  else pure ()

/-- validate_anime_has_episodes. -/
def validate_anime_has_episodes (db : DB) (animeId : Nat) : Bool :=
  EpisodeRepository.anime_has_episodes db animeId

/-- validate_unique_episode_name_for_create. -/
def validate_unique_episode_name_for_create (db : DB) (dataEpisode : EpisodeSchema) :
    Except Err Unit :=
  if EpisodeRepository.is_episode_name_taken_for_create db dataEpisode then
    throw (Err.conflict "There is an episode with that name.")
  else pure ()

/-- validate_unique_episode_name_for_update: the service-level call passes
the ANIME id of the updated episode as exclude_anime_id, and that value is
what the repository excludes from the match. -/
def validate_unique_episode_name_for_update (db : DB) (excludeAnimeId : Nat)
    (dataEpisode : EpisodeSchema) : Except Err Unit :=
  if EpisodeRepository.is_episode_name_taken_for_update db excludeAnimeId dataEpisode then
    throw (Err.conflict "There is an episode with that name.")
  else pure ()

/-- validate_if_episode_num_taken_in_season_for_create. -/
def validate_if_episode_num_taken_in_season_for_create (db : DB)
    (episode : EpisodeSchema) : Except Err Unit := do
  let taken ← EpisodeRepository.is_episode_number_taken_in_season_for_create db episode
  if taken then throw (Err.conflict "There is an episode with that num in season.")
  else pure ()

/-- validate_if_episode_num_taken_in_season_for_update. -/
def validate_if_episode_num_taken_in_season_for_update (db : DB)
    (excludeAnimeId : Nat) (dataEpisode : EpisodeSchema) : Except Err Unit := do
  let taken ← EpisodeRepository.is_episode_number_taken_in_temp_for_update db
    excludeAnimeId dataEpisode
  if taken then throw (Err.conflict "There is an episode with that num in season.")
  else pure ()

/-- validate_unique_episode_author_relation. -/
def validate_unique_episode_author_relation (db : DB)
    (dataRelation : EpisodeAuthorRelationSchema) : Except Err Unit :=
  if EpisodeRepository.exists_relation_between_episode_and_author db
      dataRelation.episodeId dataRelation.authorId then
    throw (Err.conflict "The relationship between the episode and author already exists.")
  else pure ()

/-- validate_data_for_create: air date bound, anime exists, and only when
the anime already has at least one episode the two uniqueness checks. -/
def validate_data_for_create (today : Date) (db : DB) (episode : EpisodeSchema) :
    Except Err Unit := do
  validate_air_date_not_in_future today episode.airDate
  AnimeValidator.validate_exists_by_id db episode.animeId
  if validate_anime_has_episodes db episode.animeId then do
    validate_unique_episode_name_for_create db episode
    validate_if_episode_num_taken_in_season_for_create db episode
  else pure ()

/-- validate_data_for_update: exists, air date bound, then the two
uniqueness checks with exclude_anime_id := episode.anime_id. -/
def validate_data_for_update (today : Date) (db : DB) (episodeId : Nat)
    (episode : EpisodeSchema) : Except Err Unit := do
  validate_exists_by_id db episodeId
  validate_air_date_not_in_future today episode.airDate
  validate_unique_episode_name_for_update db episode.animeId episode
  validate_if_episode_num_taken_in_season_for_update db episode.animeId episode

/-- validate_data_for_delete. -/
def validate_data_for_delete (db : DB) (episodeId : Nat) : Except Err Unit :=
  validate_exists_by_id db episodeId

end EpisodeValidator

/-! ## Factories. -/

namespace AuthorFactory

/-- app/factories/author_factory.py create: a direct field copy. -/
def create (authorBody : AuthorSchema) : Str × Option Str × Option Date :=
  (authorBody.name, some authorBody.aliasName, some authorBody.birthday)

end AuthorFactory

namespace EpisodeFactory

/-- app/factory/episode_factory.py create (the module EpisodeService
imports): it calls Episode(anime_id=..., arc=..., temp=..., name=..., ...),
but the Episode model has a season column and no temp attribute, so the
SQLAlchemy constructor raises TypeError before any row value is built. -/
def create (episodeBody : EpisodeSchema) : Except Err EpisodeSchema :=
  throw (Err.typeError "temp is an invalid keyword argument for Episode")

end EpisodeFactory

/-! ## Services (app/services). -/

namespace AnimeService

/-- get: repository get, 404 when falsy. -/
def get (db : DB) (animeId : Nat) : Except Err AnimeRow :=
  match AnimeRepository.get db animeId with
  | none => throw (Err.notFound "Anime not found")
  | some a => pure a

/-- create as written in the source: the request body goes straight to the
repository (no validator is invoked anywhere in this method). -/
def create (db : DB) (animeBody : AnimeSchema) : Except Err (DB × AnimeRow) :=
  pure (AnimeRepository.create db animeBody.name animeBody.category animeBody.releaseDate)

/-- delete as written in the source: get (404 when missing) and then the
repository delete, with no validator call. -/
def delete (db : DB) (animeId : Nat) : Except Err DB := do
  let _ ← get db animeId
  pure (AnimeRepository.delete db animeId)

end AnimeService

namespace AuthorService

/-- create: validator, then factory, then repository. -/
def create (today : Date) (db : DB) (authorBody : AuthorSchema) :
    Except Err (DB × AuthorRow) := do
  AuthorValidator.validate_data_for_create today db authorBody
  let (name, aliasName, birthday) := AuthorFactory.create authorBody
  pure (AuthorRepository.create db name aliasName birthday)

/-- create_anime_relation: after the two existence validations the source
calls self.author_validator.validate_has_relationship_with_anime(data_relation),
a method declared with two required parameters (author_id, anime_id), so
Python raises TypeError on every call that reaches this line. -/
def create_anime_relation (db : DB) (dataRelation : AuthorAnimeRelationSchema) :
    Except Err (DB × AuthorAnimeRelationSchema) := do
  AuthorValidator.validate_data_for_get db dataRelation.authorId
  AnimeValidator.validate_data_for_get db dataRelation.animeId
  throw (Err.typeError
    "validate_has_relationship_with_anime missing 1 required positional argument: anime_id")

end AuthorService

namespace EpisodeService

/-- episode_exists calls self.episode_repository.exists(episode_id), but
EpisodeRepository defines only exists_by_id and no exists method, so Python
raises AttributeError on every call. -/
def episode_exists (db : DB) (episodeId : Nat) : Except Err Bool :=
  throw (Err.attributeError "exists")

/-- create as written in the source: factory then repository, with no
validator call; the factory call raises TypeError (see EpisodeFactory). -/
def create (db : DB) (episodeBody : EpisodeSchema) : Except Err (DB × EpisodeRow) := do
  let e ← EpisodeFactory.create episodeBody
  pure (EpisodeRepository.create db e.animeId e.arc e.temp e.name e.episode e.airDate)

/-- delete as written in the source: only the episode_exists guard, then the
repository delete (the guard itself raises AttributeError, see
episode_exists). -/
def delete (db : DB) (episodeId : Nat) : Except Err DB := do
  let ex ← episode_exists db episodeId
  if ex then pure ()
  else throw (Err.notFound "The episode does not exist.")
  pure (EpisodeRepository.delete db episodeId)

/-- create_author_relation: first the episode_exists guard — which raises
AttributeError on its repository.exists call before producing any result —
then a call to self.author_service.author_exists(author_id), a method
AuthorService does not define either; neither check nor insert is ever
reached past the first AttributeError. -/
def create_author_relation (db : DB) (episodeId authorId : Nat) :
    Except Err (DB × EpisodeAuthorRelationSchema) := do
  let ex ← episode_exists db episodeId
  if ex then pure ()
  else throw (Err.notFound "The episode does not exist.")
  throw (Err.attributeError "author_exists")

end EpisodeService

/-! ## Birthday matching (app/services/birthday_service.py,
app/repositories/birthday_repository.py, app/factories/birthday_factory.py). -/

/-- The dictionary shape produced by BirthdayFactory.create. -/
structure BirthdayMatch where
  anime : List AnimeRow
  author : List AuthorRow
  episode : Nat
deriving DecidableEq, Repr

namespace BirthdayRepository

/-- get_authors_matching_date delegates to AuthorRepository.get_by_birthday. -/
def get_authors_matching_date (db : DB) (targetDate : Date) : List AuthorRow :=
  AuthorRepository.get_by_birthday db targetDate

/-- get_animes_matching_date calls self.anime_repository.get_by_release_date,
a method AnimeRepository does not define: AttributeError. -/
def get_animes_matching_date (db : DB) (targetDate : Date) :
    Except Err (List AnimeRow) :=
  throw (Err.attributeError "get_by_release_date")

/-- get_episodes_matching_date calls self.episode_repository.get_by_release_date,
a method EpisodeRepository does not define: AttributeError. -/
def get_episodes_matching_date (db : DB) (targetDate : Date) : Except Err Nat :=
  throw (Err.attributeError "get_by_release_date")

end BirthdayRepository

namespace BirthdayService

/-- match_date: the keyword arguments of BirthdayFactory.create are
evaluated in source order, match_anime first. -/
def match_date (db : DB) (targetDate : Date) : Except Err BirthdayMatch := do
  let matchAnime ← BirthdayRepository.get_animes_matching_date db targetDate
  let matchAuthor := BirthdayRepository.get_authors_matching_date db targetDate
  let matchEpisode ← BirthdayRepository.get_episodes_matching_date db targetDate
  pure ⟨matchAnime, matchAuthor, matchEpisode⟩

end BirthdayService

/-! ## Concrete stores and request bodies used by the individual results. -/

/-- The fixed validation instant used in concrete runs. -/
def today2020 : Date := ⟨2020, 1, 1⟩

/-- An anime row named naruto. -/
def narutoAnime : AnimeRow := ⟨1, mkStr ("naruto"), mkStr ("shonen"), ⟨2002, 10, 3⟩⟩

/-- A store holding only the naruto anime. -/
def dbNaruto : DB := { emptyDB with animes := [narutoAnime], nextAnimeId := 2 }

/-- A create body whose normalized name equals the stored naruto row's. -/
def narutoBody : AnimeSchema := ⟨mkStr ("naruto"), mkStr ("shonen"), ⟨2002, 10, 3⟩⟩

/-- The duplicate row the unvalidated second create persists. -/
def narutoDupRow : AnimeRow := ⟨2, mkStr ("naruto"), mkStr ("shonen"), ⟨2002, 10, 3⟩⟩

/-- dbNaruto after the duplicate create. -/
def dbNarutoDup : DB :=
  { dbNaruto with animes := [narutoAnime, narutoDupRow], nextAnimeId := 3 }

/-- An author row named osamu. -/
def osamuAuthor : AuthorRow := ⟨1, mkStr ("osamu"), none, some ⟨1928, 11, 3⟩⟩

/-- A create body whose normalized name equals the stored osamu row's. -/
def osamuBody : AuthorSchema := ⟨mkStr ("osamu"), mkStr (""), ⟨1928, 11, 3⟩⟩

/-- Store with the naruto anime and the osamu author. -/
def dbNarutoOsamu : DB :=
  { emptyDB with
    animes := [narutoAnime]
    authors := [osamuAuthor]
    nextAnimeId := 2
    nextAuthorId := 2 }

/-- An episode create body (its season-like field is temp, as in the schema). -/
def pilotEpisodeBody : EpisodeSchema := ⟨1, none, 1, mkStr ("pilot"), 1, ⟨2002, 10, 3⟩⟩

/-- Episode 1 of the naruto anime: season 1, number 1. -/
def enterNarutoEpisode : EpisodeRow :=
  ⟨1, 1, none, 1, mkStr ("enter naruto"), 1, ⟨2002, 10, 3⟩⟩

/-- Store with the naruto anime owning one episode. -/
def dbNarutoWithEpisode : DB :=
  { emptyDB with
    animes := [narutoAnime]
    episodes := [enterNarutoEpisode]
    nextAnimeId := 2
    nextEpisodeId := 2 }

/-- dbNarutoWithEpisode after the anime row is deleted (the episode remains). -/
def dbNarutoDeleted : DB := { dbNarutoWithEpisode with animes := [] }

/-- A second anime, used to show cross-anime episode collisions are ignored. -/
def bleachAnime : AnimeRow := ⟨2, mkStr ("bleach"), mkStr ("shonen"), ⟨2004, 10, 5⟩⟩

/-- An episode of the second anime with season 1, number 1, name enter naruto. -/
def bleachEpisode : EpisodeRow :=
  ⟨1, 2, none, 1, mkStr ("enter naruto"), 1, ⟨2004, 10, 5⟩⟩

/-- Store where anime 1 has no episodes while anime 2 has a colliding one. -/
def dbFirstEpisode : DB :=
  { emptyDB with
    animes := [narutoAnime, bleachAnime]
    episodes := [bleachEpisode]
    nextAnimeId := 3
    nextEpisodeId := 2 }

/-- Episode-create body for anime 1 that clashes with anime 2's episode on
name, season and number. -/
def firstEpisodeBody : EpisodeSchema :=
  ⟨1, none, 1, mkStr ("enter naruto"), 1, ⟨2002, 10, 3⟩⟩

/-- Episode-create body for anime 1 reusing the stored episode's name only. -/
def dupNameBody : EpisodeSchema := ⟨1, none, 2, mkStr ("enter naruto"), 5, ⟨2002, 10, 3⟩⟩

/-- Episode-create body for anime 1 reusing season 1 / number 1 under a
fresh name. -/
def dupNumberBody : EpisodeSchema := ⟨1, none, 1, mkStr ("other"), 1, ⟨2002, 10, 3⟩⟩

/-- The stored episode whose id (2) differs from its anime id (1): an update
that keeps its name collides with its own row. -/
def pilotEpisodeRow : EpisodeRow := ⟨2, 1, none, 1, mkStr ("pilot"), 1, ⟨2002, 10, 3⟩⟩

/-- Store for the update-exclusion run. -/
def dbPilot : DB :=
  { emptyDB with
    animes := [narutoAnime]
    episodes := [pilotEpisodeRow]
    nextAnimeId := 2
    nextEpisodeId := 3 }

/-- Store with author 1, anime 1 and episode 1 and no relations yet. -/
def dbForRelations : DB :=
  { emptyDB with
    animes := [narutoAnime]
    authors := [osamuAuthor]
    episodes := [enterNarutoEpisode]
    nextAnimeId := 2
    nextAuthorId := 2
    nextEpisodeId := 2 }

/-- The author-anime pair (1, 1). -/
def relOneOne : AuthorAnimeRelationSchema := ⟨1, 1⟩

/-- Raw anime name variant: capitalized. -/
def rawNaruto1 : Str := mkStr ("Naruto")

/-- Raw anime name variant: extra spaces and mixed case. -/
def rawNaruto2 : Str := mkStr ("  naRUto  ")

/-- Raw category used by the normalization runs. -/
def rawShonen : Str := mkStr ("shonen")

/-- The anime schema parsed from the first raw variant. -/
def variantBody1 : AnimeSchema := mkAnimeSchema rawNaruto1 rawShonen ⟨2002, 10, 3⟩

/-- The anime schema parsed from the second raw variant. -/
def variantBody2 : AnimeSchema := mkAnimeSchema rawNaruto2 rawShonen ⟨2002, 10, 3⟩

/-! ## Results: concrete evaluations. -/

/-- C1 (counterexample).  The claim says an anime create whose normalized
name duplicates a stored anime fails with a reported error and persists
nothing.  On the store already holding the naruto anime, the create with the
same normalized name instead returns success and persists a second naruto
row: AnimeService.create never invokes AnimeValidator even though
is_name_taken_for_create reports the duplicate. -/
theorem claim_C1_counterexample :
    AnimeService.create dbNaruto narutoBody = Except.ok (dbNarutoDup, narutoDupRow) ∧
    AnimeRepository.is_name_taken_for_create dbNaruto narutoBody.name = true := by
  decide

/-- C2 (code evaluation at the failing input).  First conjunct: the first
episode of anime 1 is accepted although anime 2 already stores an episode
with the same name, season and number (the uniqueness checks are skipped
when the anime has no episodes).  Second conjunct: reusing an existing
(anime_id, name) is rejected with Conflict.  Third conjunct: reusing an
existing (anime_id, season, number) under a fresh name is NOT rejected with
Conflict as the claim says: the number check reads data_episode.season,
a field EpisodeSchema does not declare (it is named temp), so the code
raises AttributeError. -/
theorem claim_C2_theorem :
    EpisodeValidator.validate_data_for_create today2020 dbFirstEpisode firstEpisodeBody =
      Except.ok () ∧
    EpisodeValidator.validate_data_for_create today2020 dbNarutoWithEpisode dupNameBody =
      Except.error (Err.conflict "There is an episode with that name.") ∧
    EpisodeValidator.validate_data_for_create today2020 dbNarutoWithEpisode dupNumberBody =
      Except.error (Err.attributeError "season") := by
  decide

/-- C3 (counterexample).  The claim says deleting an anime that has an
episode fails with Conflict and removes nothing.  On the store where the
naruto anime owns an episode, AnimeService.delete succeeds and removes the
anime row (the episode remains, orphaned): the service never invokes
AnimeValidator.validate_data_for_delete. -/
theorem claim_C3_counterexample :
    AnimeService.delete dbNarutoWithEpisode 1 = Except.ok dbNarutoDeleted ∧
    AnimeRepository.is_related_to_episode dbNarutoWithEpisode 1 = true := by
  decide

/-- C4 (code evaluation at the failing input).  The claim says the update
uniqueness checks exclude the row whose id equals the updated episode's id.
Episode 2 of anime 1 is updated keeping its own name: the name check
receives exclude_id = anime_id = 1 (not the episode id 2), so the episode's
own stored row matches and the update fails with Conflict.  The last two
conjuncts isolate the slip: excluding id 1 reports the name as taken,
excluding the episode's own id 2 would not. -/
theorem claim_C4_theorem :
    EpisodeValidator.validate_data_for_update today2020 dbPilot 2 pilotEpisodeBody =
      Except.error (Err.conflict "There is an episode with that name.") ∧
    EpisodeRepository.is_episode_name_taken_for_update dbPilot pilotEpisodeBody.animeId
      pilotEpisodeBody = true ∧
    EpisodeRepository.is_episode_name_taken_for_update dbPilot 2 pilotEpisodeBody = false := by
  decide

/-- C5 (code evaluation at the failing input).  The claim says an author
update whose id is absent fails with NotFound inside validate-for-update.
On the empty store, AuthorValidator.validate_data_for_update for the missing
id 7 returns success: the function never calls validate_exists_by_id,
contrary to its own docstring. -/
theorem claim_C5_theorem :
    AuthorValidator.validate_data_for_update today2020 emptyDB 7 osamuBody =
      Except.ok () ∧
    AuthorRepository.exists_by_id emptyDB 7 = false := by
  decide

/-- C7 (counterexample).  The two raw names are case/spacing variants with
the same normalization, the first create persists the normalized row, and
the claim says the second create then yields Conflict; instead it returns
success, because AnimeService.create never invokes the validator. -/
theorem claim_C7_counterexample :
    sanitizeStr rawNaruto1 = sanitizeStr rawNaruto2 ∧
    AnimeService.create emptyDB variantBody1 = Except.ok (dbNaruto, narutoAnime) ∧
    (AnimeService.create dbNaruto variantBody2).isOk = true := by
  decide

/-- C8 (code evaluation at the failing input).  Author 1 and anime 1 exist
and the pair is absent, yet the first creation attempt does not succeed:
AuthorService.create_anime_relation passes one argument to the two-parameter
validator method, so every call raises TypeError; and the episode-author
path raises AttributeError at its very first step, because
EpisodeService.episode_exists calls episode_repository.exists, a method
EpisodeRepository does not define.  No relation-creation request can reach
the Conflict branch, or any insert. -/
theorem claim_C8_theorem :
    AuthorService.create_anime_relation dbForRelations relOneOne =
      Except.error (Err.typeError
        "validate_has_relationship_with_anime missing 1 required positional argument: anime_id") ∧
    dbForRelations.animeAuthor = [] ∧
    EpisodeService.create_author_relation dbForRelations 1 1 =
      Except.error (Err.attributeError "exists") := by
  decide

/-- C9 (code evaluation at the failing input).  The claim says match_date
returns the authors, animes and episode count matching the target date.  The
author leg alone is correct (second conjunct), but match_date itself always
raises AttributeError: BirthdayRepository calls get_by_release_date on
AnimeRepository and EpisodeRepository, and neither defines that method. -/
theorem claim_C9_theorem :
    BirthdayService.match_date dbForRelations ⟨1928, 11, 3⟩ =
      Except.error (Err.attributeError "get_by_release_date") ∧
    BirthdayRepository.get_authors_matching_date dbForRelations ⟨1928, 11, 3⟩ =
      [osamuAuthor] := by
  decide

/-- C10: in every repository list operation a falsy filter value (the
integer 0 or the empty string) is treated exactly like an absent filter:
each conjunct replaces one provided-but-falsy argument by None and the
result is unchanged, for every store and every choice of the remaining
arguments. -/
theorem claim_C10_theorem (db : DB) (animeId season episode : Option Nat)
    (arc name airDate : Option Str) (nameA catA rdA : Option Str)
    (nameAu aliasAu bdayAu : Option Str) (limit start : Option Nat) :
    (EpisodeRepository.list db (some 0) arc season name episode airDate limit start =
      EpisodeRepository.list db none arc season name episode airDate limit start) ∧
    (EpisodeRepository.list db animeId (some []) season name episode airDate limit start =
      EpisodeRepository.list db animeId none season name episode airDate limit start) ∧
    (EpisodeRepository.list db animeId arc (some 0) name episode airDate limit start =
      EpisodeRepository.list db animeId arc none name episode airDate limit start) ∧
    (EpisodeRepository.list db animeId arc season (some []) episode airDate limit start =
      EpisodeRepository.list db animeId arc season none episode airDate limit start) ∧
    (EpisodeRepository.list db animeId arc season name (some 0) airDate limit start =
      EpisodeRepository.list db animeId arc season name none airDate limit start) ∧
    (EpisodeRepository.list db animeId arc season name episode (some []) limit start =
      EpisodeRepository.list db animeId arc season name episode none limit start) ∧
    (AnimeRepository.list db (some []) catA rdA limit start =
      AnimeRepository.list db none catA rdA limit start) ∧
    (AnimeRepository.list db nameA (some []) rdA limit start =
      AnimeRepository.list db nameA none rdA limit start) ∧
    (AnimeRepository.list db nameA catA (some []) limit start =
      AnimeRepository.list db nameA catA none limit start) ∧
    (AuthorRepository.list db (some []) aliasAu bdayAu limit start =
      AuthorRepository.list db none aliasAu bdayAu limit start) ∧
    (AuthorRepository.list db nameAu (some []) bdayAu limit start =
      AuthorRepository.list db nameAu none bdayAu limit start) ∧
    (AuthorRepository.list db nameAu aliasAu (some []) limit start =
      AuthorRepository.list db nameAu aliasAu none limit start) :=
  ⟨rfl, rfl, rfl, rfl, rfl, rfl, rfl, rfl, rfl, rfl, rfl, rfl⟩

/-! ## Helper lemmas. -/

/-- No date is strictly before itself. -/
theorem date_blt_irrefl (d : Date) : Date.blt d d = false := by
  simp [Date.blt]

/-- A failed any gives a failed find?. -/
theorem find?_eq_none_of_any_eq_false {α : Type} {l : List α} {p : α → Bool}
    (h : l.any p = false) : l.find? p = none := by
  rw [List.find?_eq_none]
  intro a ha hpa
  rw [List.any_eq_false] at h
  exact absurd hpa (h a ha)

/-- A successful any gives a successful find?. -/
theorem find?_isSome_of_any_eq_true {α : Type} {l : List α} {p : α → Bool}
    (h : l.any p = true) : (l.find? p).isSome = true := by
  rw [List.find?_isSome]
  exact List.any_eq_true.mp h

/-- A list whose isEmpty is false has positive length. -/
theorem length_pos_of_isEmpty_eq_false {α : Type} {l : List α}
    (h : l.isEmpty = false) : 0 < l.length := by
  cases l with
  | nil => cases h
  | cons a l => exact Nat.succ_pos _

/-- C3 (amended). -/
theorem claim_C3_theorem (db : DB) (animeId : Nat) :
    (AnimeRepository.exists_by_id db animeId = false →
      AnimeService.delete db animeId = Except.error (Err.notFound "Anime not found")) ∧
    (AnimeRepository.exists_by_id db animeId = true →
      AnimeService.delete db animeId = Except.ok (AnimeRepository.delete db animeId)) ∧
    (AnimeRepository.is_related_to_episode db animeId = true →
      AnimeService.delete db animeId = Except.ok (AnimeRepository.delete db animeId)) := by
  have hexists : AnimeRepository.exists_by_id db animeId = true →
      AnimeService.delete db animeId = Except.ok (AnimeRepository.delete db animeId) := by
    intro h
    have hsome := find?_isSome_of_any_eq_true (l := db.animes)
      (p := fun a => a.id == animeId) h
    obtain ⟨a, ha⟩ := Option.isSome_iff_exists.mp hsome
    unfold AnimeService.delete AnimeService.get AnimeRepository.get
    rw [ha]
    rfl
  refine ⟨?_, hexists, ?_⟩
  · intro h
    have hnone := find?_eq_none_of_any_eq_false (l := db.animes)
      (p := fun a => a.id == animeId) h
    unfold AnimeService.delete AnimeService.get AnimeRepository.get
    rw [hnone]
    rfl
  · intro h
    exact hexists (Bool.and_eq_true_iff.mp h).1

/-- C1 (amended). -/
theorem claim_C1_theorem (today : Date) (db : DB) (abody : AuthorSchema)
    (nbody : AnimeSchema) (ebody : EpisodeSchema) :
    (AuthorRepository.is_name_taken_for_create db abody.name = true →
      AuthorService.create today db abody =
        Except.error (Err.conflict "There is an auhor with that name")) ∧
    ((AnimeService.create db nbody).isOk = true) ∧
    (AnimeRepository.is_name_taken_for_create db nbody.name = true →
      ∀ db2 row, AnimeService.create db nbody = Except.ok (db2, row) →
        2 ≤ (db2.animes.filter (fun a => a.name == nbody.name)).length) ∧
    (EpisodeService.create db ebody =
      Except.error (Err.typeError "temp is an invalid keyword argument for Episode")) := by
  refine ⟨?_, rfl, ?_, rfl⟩
  · intro h
    unfold AuthorService.create AuthorValidator.validate_data_for_create
      AuthorValidator.validate_unique_name_for_create
    rw [h]
    rfl
  · intro h db2 row hc
    have hc2 : (({ db with
          animes := db.animes ++
            [⟨db.nextAnimeId, nbody.name, nbody.category, nbody.releaseDate⟩]
          nextAnimeId := db.nextAnimeId + 1 } : DB),
        (⟨db.nextAnimeId, nbody.name, nbody.category, nbody.releaseDate⟩ : AnimeRow)) =
        (db2, row) := Except.ok.inj hc
    injection hc2 with h1 h2
    subst h1
    rw [List.filter_append]
    have hone : (List.filter (fun a => a.name == nbody.name)
        [(⟨db.nextAnimeId, nbody.name, nbody.category, nbody.releaseDate⟩ : AnimeRow)]).length
        = 1 := by
      simp [List.filter]
    have hpos : 0 < (List.filter (fun a => a.name == nbody.name) db.animes).length := by
      apply length_pos_of_isEmpty_eq_false
      unfold AnimeRepository.is_name_taken_for_create AnimeRepository.is_name_taken at h
      cases hemp : (List.filter (fun a => a.name == nbody.name) db.animes).isEmpty with
      | false => rfl
      | true => rw [hemp] at h; cases h
    rw [List.length_append, hone]
    omega

/-- C1 (witness): the amended statement at concrete inputs. -/
theorem claim_C1_witness :
    AuthorService.create today2020 dbNarutoOsamu osamuBody =
      Except.error (Err.conflict "There is an auhor with that name") ∧
    (AnimeService.create dbNaruto narutoBody).isOk = true ∧
    2 ≤ (dbNarutoDup.animes.filter (fun a => a.name == narutoBody.name)).length ∧
    EpisodeService.create dbNaruto pilotEpisodeBody =
      Except.error (Err.typeError "temp is an invalid keyword argument for Episode") :=
  ⟨(claim_C1_theorem today2020 dbNarutoOsamu osamuBody narutoBody pilotEpisodeBody).1
      (by decide),
   (claim_C1_theorem today2020 dbNaruto osamuBody narutoBody pilotEpisodeBody).2.1,
   (claim_C1_theorem today2020 dbNaruto osamuBody narutoBody pilotEpisodeBody).2.2.1
      (by decide) dbNarutoDup narutoDupRow (by decide),
   (claim_C1_theorem today2020 dbNaruto osamuBody narutoBody pilotEpisodeBody).2.2.2⟩

/-- C3 (witness): the amended statement at concrete inputs. -/
theorem claim_C3_witness :
    AnimeService.delete emptyDB 5 = Except.error (Err.notFound "Anime not found") ∧
    AnimeService.delete dbNarutoWithEpisode 1 =
      Except.ok (AnimeRepository.delete dbNarutoWithEpisode 1) :=
  ⟨(claim_C3_theorem emptyDB 5).1 (by decide),
   (claim_C3_theorem dbNarutoWithEpisode 1).2.2 (by decide)⟩

/-- C6: boundary behaviour of the date checks.  A date strictly after today
is rejected as a future date by all three checks; a non-future date strictly
before the configured minimum is rejected as too early (Anime 1907-01-01,
Author 1877-11-04); a date equal to the minimum, or equal to today, passes
the checks (provided the minimum itself is not in the future); Episode air
dates have no minimum and any non-future date passes. -/
theorem claim_C6_theorem (today d : Date) :
    (Date.blt today d = true →
      AnimeSchema.validate_date today d = Except.error SchemaErr.futureDate ∧
      AuthorSchemaCreate.validate_date today d = Except.error SchemaErr.futureDate ∧
      EpisodeValidator.validate_air_date_not_in_future today d =
        Except.error (Err.conflict "The air date should not be in the future.")) ∧
    (Date.blt today d = false → Date.blt d animeMinDate = true →
      AnimeSchema.validate_date today d = Except.error SchemaErr.tooEarly) ∧
    (Date.blt today d = false → Date.blt d authorMinDate = true →
      AuthorSchemaCreate.validate_date today d = Except.error SchemaErr.tooEarly) ∧
    (Date.blt today animeMinDate = false →
      AnimeSchema.validate_date today animeMinDate = Except.ok animeMinDate) ∧
    (Date.blt today authorMinDate = false →
      AuthorSchemaCreate.validate_date today authorMinDate = Except.ok authorMinDate) ∧
    (Date.blt today animeMinDate = false →
      AnimeSchema.validate_date today today = Except.ok today) ∧
    (Date.blt today authorMinDate = false →
      AuthorSchemaCreate.validate_date today today = Except.ok today) ∧
    (Date.blt today d = false →
      EpisodeValidator.validate_air_date_not_in_future today d = Except.ok ()) := by
  refine ⟨?_, ?_, ?_, ?_, ?_, ?_, ?_, ?_⟩
  · intro h
    refine ⟨?_, ?_, ?_⟩
    · unfold AnimeSchema.validate_date validate_date_not_in_the_future
      rw [h]
      rfl
    · unfold AuthorSchemaCreate.validate_date validate_date_not_in_the_future
      rw [h]
      rfl
    · unfold EpisodeValidator.validate_air_date_not_in_future
      rw [h]
      rfl
  · intro h1 h2
    unfold AnimeSchema.validate_date validate_date_not_in_the_future
      validate_date_no_less_minimum
    rw [h1, h2]
    rfl
  · intro h1 h2
    unfold AuthorSchemaCreate.validate_date validate_date_not_in_the_future
      validate_date_no_less_minimum
    rw [h1, h2]
    rfl
  · intro h
    unfold AnimeSchema.validate_date validate_date_not_in_the_future
      validate_date_no_less_minimum
    rw [h, date_blt_irrefl]
    rfl
  · intro h
    unfold AuthorSchemaCreate.validate_date validate_date_not_in_the_future
      validate_date_no_less_minimum
    rw [h, date_blt_irrefl]
    rfl
  · intro h
    unfold AnimeSchema.validate_date validate_date_not_in_the_future
      validate_date_no_less_minimum
    rw [date_blt_irrefl, h]
    rfl
  · intro h
    unfold AuthorSchemaCreate.validate_date validate_date_not_in_the_future
      validate_date_no_less_minimum
    rw [date_blt_irrefl, h]
    rfl
  · intro h
    unfold EpisodeValidator.validate_air_date_not_in_future
    rw [h]
    rfl

/-- C6 (witness): the boundary statement at concrete dates around
2020-01-01: the future date 2021-01-01 is rejected by all three checks,
1900-01-01 is too early for an anime release, 1850-01-01 is too early for an
author birthday, each configured minimum and today itself are accepted, and
a past air date passes the episode check. -/
theorem claim_C6_witness :
    (AnimeSchema.validate_date today2020 ⟨2021, 1, 1⟩ =
      Except.error SchemaErr.futureDate ∧
     AuthorSchemaCreate.validate_date today2020 ⟨2021, 1, 1⟩ =
      Except.error SchemaErr.futureDate ∧
     EpisodeValidator.validate_air_date_not_in_future today2020 ⟨2021, 1, 1⟩ =
      Except.error (Err.conflict "The air date should not be in the future.")) ∧
    AnimeSchema.validate_date today2020 ⟨1900, 1, 1⟩ = Except.error SchemaErr.tooEarly ∧
    AuthorSchemaCreate.validate_date today2020 ⟨1850, 1, 1⟩ =
      Except.error SchemaErr.tooEarly ∧
    AnimeSchema.validate_date today2020 animeMinDate = Except.ok animeMinDate ∧
    AuthorSchemaCreate.validate_date today2020 authorMinDate = Except.ok authorMinDate ∧
    AnimeSchema.validate_date today2020 today2020 = Except.ok today2020 ∧
    AuthorSchemaCreate.validate_date today2020 today2020 = Except.ok today2020 ∧
    EpisodeValidator.validate_air_date_not_in_future today2020 ⟨2000, 5, 5⟩ =
      Except.ok () :=
  ⟨(claim_C6_theorem today2020 ⟨2021, 1, 1⟩).1 (by decide),
   (claim_C6_theorem today2020 ⟨1900, 1, 1⟩).2.1 (by decide) (by decide),
   (claim_C6_theorem today2020 ⟨1850, 1, 1⟩).2.2.1 (by decide) (by decide),
   (claim_C6_theorem today2020 today2020).2.2.2.1 (by decide),
   (claim_C6_theorem today2020 today2020).2.2.2.2.1 (by decide),
   (claim_C6_theorem today2020 today2020).2.2.2.2.2.1 (by decide),
   (claim_C6_theorem today2020 today2020).2.2.2.2.2.2.1 (by decide),
   (claim_C6_theorem today2020 ⟨2000, 5, 5⟩).2.2.2.2.2.2.2 (by decide)⟩

/-- Lowercasing never turns a character into or out of whitespace. -/
theorem isSpaceChar_lowerChar (c : Nat) : isSpaceChar (lowerChar c) = isSpaceChar c := by
  unfold lowerChar
  split_ifs with h
  · have h1 : isSpaceChar (c + 32) = false := by
      simp only [isSpaceChar, Nat.add_eq, beq_eq_false_iff_ne, ne_eq,
        Bool.or_eq_false_iff]
      omega
    have h2 : isSpaceChar c = false := by
      simp only [isSpaceChar, beq_eq_false_iff_ne, ne_eq, Bool.or_eq_false_iff]
      omega
    rw [h1, h2]
  · rfl

/-- Lowercasing is idempotent on one character. -/
theorem lowerChar_idem (c : Nat) : lowerChar (lowerChar c) = lowerChar c := by
  unfold lowerChar
  split_ifs <;> omega

/-- Lowercasing is idempotent on strings. -/
theorem lowerStr_idem (s : Str) : lowerStr (lowerStr s) = lowerStr s := by
  unfold lowerStr
  rw [List.map_map]
  exact List.map_congr_left (fun c _ => lowerChar_idem c)

/-- Lowercasing commutes with joining on a single space. -/
theorem lowerStr_joinSpace (ws : List Str) :
    lowerStr (joinSpace ws) = joinSpace (ws.map lowerStr) := by
  induction ws with
  | nil => rfl
  | cons w ws ih =>
    cases ws with
    | nil => rfl
    | cons w2 rest =>
      show lowerStr (w ++ 32 :: joinSpace (w2 :: rest)) =
        lowerStr w ++ 32 :: joinSpace ((w2 :: rest).map lowerStr)
      unfold lowerStr
      rw [List.map_append, List.map_cons]
      unfold lowerStr at ih
      rw [ih]
      rfl

/-- Lowercasing commutes with the split accumulator. -/
theorem splitWsAcc_lowerStr (s : Str) : ∀ acc : Str,
    splitWsAcc (lowerStr s) (lowerStr acc) = (splitWsAcc s acc).map lowerStr := by
  induction s with
  | nil =>
    intro acc
    show splitWsAcc [] (lowerStr acc) = _
    unfold splitWsAcc
    cases acc with
    | nil => rfl
    | cons a as =>
      show (if ((a :: as).map lowerChar).isEmpty then [] else [((a :: as).map lowerChar).reverse])
        = _
      simp [lowerStr, List.map_reverse]
  | cons c s ih =>
    intro acc
    show splitWsAcc (lowerChar c :: lowerStr s) (lowerStr acc) = _
    unfold splitWsAcc
    rw [isSpaceChar_lowerChar]
    cases hsp : isSpaceChar c with
    | true =>
      simp only [if_true]
      have hemp : (lowerStr acc).isEmpty = acc.isEmpty := by
        cases acc <;> rfl
      rw [hemp]
      have h0 : splitWsAcc (lowerStr s) [] = (splitWsAcc s []).map lowerStr := ih []
      cases hacc : acc.isEmpty with
      | true =>
        simp only [if_true]
        exact h0
      | false =>
        simp only [Bool.false_eq_true, if_false]
        have hrev : (lowerStr acc).reverse = lowerStr acc.reverse := by
          simp [lowerStr, List.map_reverse]
        rw [hrev, h0]
        rfl
    | false =>
      simp only [Bool.false_eq_true, if_false]
      have : lowerChar c :: lowerStr acc = lowerStr (c :: acc) := rfl
      rw [this]
      exact ih (c :: acc)

/-- Lowercasing commutes with str.split(). -/
theorem splitWs_lowerStr (s : Str) : splitWs (lowerStr s) = (splitWs s).map lowerStr :=
  splitWsAcc_lowerStr s []

/-- Words produced by the split accumulator are nonempty and whitespace-free
whenever the running accumulator is whitespace-free. -/
theorem splitWsAcc_words (s : Str) : ∀ acc : Str,
    (∀ c ∈ acc, isSpaceChar c = false) →
    ∀ w ∈ splitWsAcc s acc, w ≠ [] ∧ ∀ c ∈ w, isSpaceChar c = false := by
  induction s with
  | nil =>
    intro acc hacc w hw
    unfold splitWsAcc at hw
    cases hne : acc.isEmpty with
    | true => rw [hne] at hw; simp at hw
    | false =>
      rw [hne] at hw
      simp only [Bool.false_eq_true, if_false, List.mem_singleton] at hw
      subst hw
      constructor
      · intro hrev
        rw [List.reverse_eq_nil_iff] at hrev
        subst hrev
        cases hne
      · intro c hc
        exact hacc c (List.mem_reverse.mp hc)
  | cons c s ih =>
    intro acc hacc w hw
    unfold splitWsAcc at hw
    cases hsp : isSpaceChar c with
    | true =>
      rw [hsp] at hw
      simp only [if_true] at hw
      cases hne : acc.isEmpty with
      | true =>
        rw [hne] at hw
        simp only [if_true] at hw
        exact ih [] (by intro x hx; cases hx) w hw
      | false =>
        rw [hne] at hw
        simp only [Bool.false_eq_true, if_false, List.mem_cons] at hw
        cases hw with
        | inl hw =>
          subst hw
          constructor
          · intro hrev
            rw [List.reverse_eq_nil_iff] at hrev
            subst hrev
            cases hne
          · intro x hx
            exact hacc x (List.mem_reverse.mp hx)
        | inr hw =>
          exact ih [] (by intro x hx; cases hx) w hw
    | false =>
      rw [hsp] at hw
      simp only [Bool.false_eq_true, if_false] at hw
      refine ih (c :: acc) ?_ w hw
      intro x hx
      cases hx with
      | head => exact hsp
      | tail _ hx => exact hacc x hx

/-- Every word of str.split() is nonempty and whitespace-free. -/
theorem splitWs_words (s : Str) :
    ∀ w ∈ splitWs s, w ≠ [] ∧ ∀ c ∈ w, isSpaceChar c = false :=
  splitWsAcc_words s [] (by intro x hx; cases hx)

/-- Consuming a whitespace-free block prepends it (reversed) to the
accumulator. -/
theorem splitWsAcc_append_word (w : Str) : ∀ rest acc : Str,
    (∀ c ∈ w, isSpaceChar c = false) →
    splitWsAcc (w ++ rest) acc = splitWsAcc rest (w.reverse ++ acc) := by
  induction w with
  | nil => intro rest acc _; rfl
  | cons c w ih =>
    intro rest acc hw
    show splitWsAcc (c :: (w ++ rest)) acc = _
    conv_lhs => rw [splitWsAcc]
    rw [hw c (List.mem_cons_self c w)]
    simp only [Bool.false_eq_true, if_false]
    rw [ih rest (c :: acc) (fun x hx => hw x (List.mem_cons_of_mem c hx))]
    rw [List.reverse_cons, List.append_assoc, List.singleton_append]

/-- Splitting a space-joined list of nonempty whitespace-free words gives
the words back. -/
theorem splitWs_joinSpace (ws : List Str)
    (h : ∀ w ∈ ws, w ≠ [] ∧ ∀ c ∈ w, isSpaceChar c = false) :
    splitWs (joinSpace ws) = ws := by
  induction ws with
  | nil => rfl
  | cons w ws ih =>
    cases ws with
    | nil =>
      obtain ⟨hne, hw⟩ := h w (List.mem_singleton_self w)
      show splitWsAcc (joinSpace [w]) [] = [w]
      have hjoin : joinSpace [w] = w ++ [] := by
        rw [List.append_nil]
        rfl
      rw [hjoin, splitWsAcc_append_word w [] [] hw]
      show (if (w.reverse ++ []).isEmpty then [] else [(w.reverse ++ []).reverse]) = [w]
      rw [List.append_nil, List.reverse_reverse]
      have : w.reverse.isEmpty = false := by
        cases hrev : w.reverse with
        | nil => exact absurd (List.reverse_eq_nil_iff.mp hrev) hne
        | cons a l => rfl
      rw [this]
      rfl
    | cons w2 rest =>
      obtain ⟨hne, hw⟩ := h w (List.mem_cons_self w _)
      show splitWsAcc (w ++ 32 :: joinSpace (w2 :: rest)) [] = w :: w2 :: rest
      rw [splitWsAcc_append_word w (32 :: joinSpace (w2 :: rest)) [] hw]
      show (if (w.reverse ++ []).isEmpty then splitWsAcc (joinSpace (w2 :: rest)) []
        else (w.reverse ++ []).reverse :: splitWsAcc (joinSpace (w2 :: rest)) []) = _
      rw [List.append_nil, List.reverse_reverse]
      have hrevne : w.reverse.isEmpty = false := by
        cases hrev : w.reverse with
        | nil => exact absurd (List.reverse_eq_nil_iff.mp hrev) hne
        | cons a l => rfl
      rw [hrevne]
      simp only [Bool.false_eq_true, if_false]
      have hrest := ih (fun x hx => h x (List.mem_cons_of_mem w hx))
      unfold splitWs at hrest
      rw [hrest]

/-- remove_extra_spaces does not change the word decomposition. -/
theorem splitWs_removeExtraSpaces (s : Str) :
    splitWs (removeExtraSpaces s) = splitWs s :=
  splitWs_joinSpace (splitWs s) (splitWs_words s)

/-- Sanitization in word form: lowercase words joined by single spaces. -/
theorem sanitizeStr_eq_join_lower (s : Str) :
    sanitizeStr s = joinSpace ((splitWs s).map lowerStr) := by
  unfold sanitizeStr removeExtraSpaces
  rw [lowerStr_joinSpace]

/-- The normalization is idempotent. -/
theorem sanitizeStr_idem (s : Str) : sanitizeStr (sanitizeStr s) = sanitizeStr s := by
  rw [sanitizeStr_eq_join_lower (sanitizeStr s)]
  have hsplit : splitWs (sanitizeStr s) = (splitWs s).map lowerStr := by
    unfold sanitizeStr
    rw [splitWs_lowerStr, splitWs_removeExtraSpaces]
  rw [hsplit, List.map_map]
  have hmap : (splitWs s).map (lowerStr ∘ lowerStr) = (splitWs s).map lowerStr :=
    List.map_congr_left (fun w _ => lowerStr_idem w)
  rw [hmap, ← sanitizeStr_eq_join_lower]

/-- Strings with the same lowercased word decomposition normalize equally. -/
theorem sanitizeStr_eq_of_lower_words (s t : Str)
    (h : (splitWs s).map lowerStr = (splitWs t).map lowerStr) :
    sanitizeStr s = sanitizeStr t := by
  rw [sanitizeStr_eq_join_lower, sanitizeStr_eq_join_lower, h]

/-- C7 (amended).  Normalization is applied at the schema stage and is
idempotent, and raw names with the same lowercased word decomposition (case
or spacing variants) normalize to the same canonical string; after a first
create, the validator's uniqueness check reports Conflict for any such
variant — but the second service-level create nevertheless succeeds, because
AnimeService.create never invokes the validator. -/
theorem claim_C7_theorem (today d : Date) (s t cat : Str) (db : DB) :
    ((mkAnimeSchema s cat d).name = sanitizeStr s) ∧
    (sanitizeStr (sanitizeStr s) = sanitizeStr s) ∧
    ((splitWs s).map lowerStr = (splitWs t).map lowerStr →
      sanitizeStr s = sanitizeStr t) ∧
    ((splitWs s).map lowerStr = (splitWs t).map lowerStr →
      ∀ db1 row, AnimeService.create db (mkAnimeSchema s cat d) = Except.ok (db1, row) →
        AnimeValidator.validate_data_for_create today db1 (mkAnimeSchema t cat d) =
          Except.error (Err.conflict "There is an anime with that name")) ∧
    ((AnimeService.create db (mkAnimeSchema t cat d)).isOk = true) := by
  refine ⟨rfl, sanitizeStr_idem s, sanitizeStr_eq_of_lower_words s t, ?_, rfl⟩
  intro h db1 row hc
  have hst : sanitizeStr s = sanitizeStr t := sanitizeStr_eq_of_lower_words s t h
  have hc2 : (({ db with
        animes := db.animes ++
          [⟨db.nextAnimeId, sanitizeStr s, sanitizeStr cat, d⟩]
        nextAnimeId := db.nextAnimeId + 1 } : DB),
      (⟨db.nextAnimeId, sanitizeStr s, sanitizeStr cat, d⟩ : AnimeRow)) =
      (db1, row) := Except.ok.inj hc
  injection hc2 with h1 h2
  subst h1
  have htaken : AnimeRepository.is_name_taken_for_create
      ({ db with
        animes := db.animes ++
          [⟨db.nextAnimeId, sanitizeStr s, sanitizeStr cat, d⟩]
        nextAnimeId := db.nextAnimeId + 1 } : DB)
      (mkAnimeSchema t cat d).name = true := by
    show (!(List.filter (fun a => a.name == sanitizeStr t)
      (db.animes ++ [⟨db.nextAnimeId, sanitizeStr s, sanitizeStr cat, d⟩])).isEmpty) = true
    rw [List.filter_append]
    have hlast : List.filter (fun a => a.name == sanitizeStr t)
        [(⟨db.nextAnimeId, sanitizeStr s, sanitizeStr cat, d⟩ : AnimeRow)] =
        [⟨db.nextAnimeId, sanitizeStr s, sanitizeStr cat, d⟩] := by
      simp [List.filter, hst]
    rw [hlast]
    cases List.filter (fun a => a.name == sanitizeStr t) db.animes <;> rfl
  unfold AnimeValidator.validate_data_for_create
    AnimeValidator.validate_unique_name_for_create
  rw [htaken]
  rfl

/-- C7 (witness): the amended statement at the two concrete raw variants
Naruto and (spaced, mixed-case) naRUto. -/
theorem claim_C7_witness :
    (mkAnimeSchema rawNaruto1 rawShonen ⟨2002, 10, 3⟩).name = sanitizeStr rawNaruto1 ∧
    sanitizeStr (sanitizeStr rawNaruto1) = sanitizeStr rawNaruto1 ∧
    sanitizeStr rawNaruto1 = sanitizeStr rawNaruto2 ∧
    AnimeValidator.validate_data_for_create today2020 dbNaruto variantBody2 =
      Except.error (Err.conflict "There is an anime with that name") ∧
    (AnimeService.create emptyDB variantBody2).isOk = true :=
  ⟨(claim_C7_theorem today2020 ⟨2002, 10, 3⟩ rawNaruto1 rawNaruto2 rawShonen emptyDB).1,
   (claim_C7_theorem today2020 ⟨2002, 10, 3⟩ rawNaruto1 rawNaruto2 rawShonen emptyDB).2.1,
   (claim_C7_theorem today2020 ⟨2002, 10, 3⟩ rawNaruto1 rawNaruto2 rawShonen emptyDB).2.2.1
     (by decide),
   (claim_C7_theorem today2020 ⟨2002, 10, 3⟩ rawNaruto1 rawNaruto2 rawShonen emptyDB).2.2.2.1
     (by decide) dbNaruto narutoAnime (by decide),
   (claim_C7_theorem today2020 ⟨2002, 10, 3⟩ rawNaruto1 rawNaruto2 rawShonen emptyDB).2.2.2.2⟩
